import Mathlib

/-!
Verification of the SoloCheck backend core: the liveness/deadline
arithmetic, the contact consent state machine, the SOS countdown state
machine, the one-time token lifecycle, the reminder policy, and the
notification fan-out.

The Lean definitions are a shallow embedding of the Python service layer
under `src/`: each database table becomes a list of rows, each SQLAlchemy
query-and-mutate function becomes a pure function from the row list to an
optional result together with the updated row list, timestamps are
integers counting seconds (UTC), and times of day are counted in minutes.
External delivery (email, push) is a boolean-valued oracle parameter, as
the delivery providers are out-of-scope collaborators.
-/

namespace SoloCheck

/-- Update the first element of a list satisfying the predicate `p` by
applying `f`, returning the updated element (if any) together with the
updated list. This models the SQLAlchemy pattern
`db.query(T).filter(p).first()` followed by an in-place mutation of the
found row and a commit. -/
def updateFirst (p : α → Bool) (f : α → α) : List α → Option α × List α
  | [] => (none, [])
  | x :: xs =>
    if p x then
      (some (f x), f x :: xs)
    else
      let r := updateFirst p f xs
      (r.1, x :: r.2)

theorem updateFirst_of_forall_neg (p : α → Bool) (f : α → α) :
    ∀ l : List α, (∀ x ∈ l, p x = false) → updateFirst p f l = (none, l) := by
  intro l
  induction l with
  | nil => intro _; rfl
  | cons x xs ih =>
    intro h
    have hx : p x = false := h x (List.mem_cons_self x xs)
    have hxs : updateFirst p f xs = (none, xs) :=
      ih (fun z hz => h z (List.mem_cons_of_mem x hz))
    simp [updateFirst, hx, hxs]

theorem updateFirst_append (p : α → Bool) (f : α → α) (x : α) :
    ∀ l1 l2 : List α, (∀ z ∈ l1, p z = false) → p x = true →
      updateFirst p f (l1 ++ x :: l2) = (some (f x), l1 ++ f x :: l2) := by
  intro l1
  induction l1 with
  | nil =>
    intro l2 _ hx
    simp [updateFirst, hx]
  | cons y ys ih =>
    intro l2 h hx
    have hy : p y = false := h y (List.mem_cons_self y ys)
    have hrec := ih l2 (fun z hz => h z (List.mem_cons_of_mem y hz)) hx
    simp [updateFirst, hy, hrec]

/-! ## Data model

Row types mirror the SQLAlchemy models, restricted to the fields the
service layer reads or writes. -/

/-- SOS status constants from `src/sos/models.py`. -/
inductive SOSStatus where
  | triggered
  | cancelled
  | sent
deriving Repr, DecidableEq

/-- Row of the `sos_events` table (`src/sos/models.py`). Coordinates are
modelled as scaled integers; their values are irrelevant here. -/
structure SOSEvent where
  id : Nat
  userId : Nat
  triggeredAt : Int
  cancelledAt : Option Int := none
  sentAt : Option Int := none
  locationLat : Option Int := none
  locationLng : Option Int := none
  status : SOSStatus
deriving Repr, DecidableEq

/-- Personal message row (`src/messages/models.py`), restricted to the
fields the scheduler reads; content stands for the decrypted text. -/
structure PersonalMessage where
  content : String
  isEnabled : Bool
deriving Repr, DecidableEq

/-- Row of the `users` table (`src/users/models.py`), restricted to the
liveness-relevant fields. -/
structure User where
  id : Nat
  nickname : Option String := none
  checkInCycle : Int := 7
  gracePeriod : Int := 48
  lastCheckIn : Option Int := none
  isActive : Bool := true
  fcmToken : Option String := none
  personalMessage : Option PersonalMessage := none
deriving Repr, DecidableEq

/-- Consent status constants from `src/contacts/models.py`. -/
inductive ConsentStatus where
  | pending
  | approved
  | rejected
  | expired
deriving Repr, DecidableEq

/-- Contact type constants from `src/contacts/models.py`. -/
inductive ContactType where
  | email
  | sms
deriving Repr, DecidableEq

/-- Row of the `emergency_contacts` table (`src/contacts/models.py`). -/
structure EmergencyContact where
  id : Nat
  userId : Nat
  name : String := ""
  contactType : ContactType := ContactType.email
  contactValue : String := ""
  priority : Nat := 1
  isVerified : Bool := false
  status : ConsentStatus := ConsentStatus.pending
  consentRequestedAt : Option Int := none
  consentRespondedAt : Option Int := none
  consentToken : Option String := none
  consentExpiresAt : Option Int := none
deriving Repr, DecidableEq

/-- Row of the `checkin_session_tokens` table (`src/checkin/models.py`). -/
structure CheckInSessionToken where
  id : Nat
  userId : Nat
  token : String
  expiresAt : Int
  usedAt : Option Int := none
deriving Repr, DecidableEq

/-- Notification type constants from `src/notifications/models.py`. -/
inductive NotificationType where
  | statusAlert
  | personalMessage
  | sosAlert
deriving Repr, DecidableEq

/-- Notification delivery status constants from
`src/notifications/models.py`. -/
inductive NotificationStatus where
  | pending
  | sent
  | failed
deriving Repr, DecidableEq

/-- Row of the `notification_logs` table (`src/notifications/models.py`). -/
structure NotificationLog where
  userId : Nat
  contactId : Nat
  type : NotificationType
  status : NotificationStatus
  errorMessage : Option String := none
  sentAt : Option Int := none
deriving Repr, DecidableEq

/-! ## SOS engine (`src/sos/service.py`) -/

/-- Function `trigger_sos`: verifies that the user exists, then inserts a
fresh event with status `triggered` and `triggered_at = now`. The database
id generated for the new row is passed in as `newId`. No existing event is
read or modified. -/
def trigger_sos (users : List User) (newId : Nat) (now : Int)
    (userId : Nat) (lat lng : Option Int) (db : List SOSEvent) :
    Option SOSEvent × List SOSEvent :=
  match users.find? (fun u => u.id == userId) with
  | none => (none, db)
  | some _ =>
    let e : SOSEvent :=
      { id := newId, userId := userId, triggeredAt := now,
        locationLat := lat, locationLng := lng,
        status := SOSStatus.triggered }
    (some e, db ++ [e])

/-- Function `cancel_sos`: finds the first event with the given id that
belongs to the user and has status `triggered`, and sets its status to
`cancelled` with `cancelled_at = now`; returns none when no such row
exists. -/
def cancel_sos (now : Int) (userId sosId : Nat) (db : List SOSEvent) :
    Option SOSEvent × List SOSEvent :=
  updateFirst
    (fun e => e.id == sosId && e.userId == userId &&
      e.status == SOSStatus.triggered)
    (fun e => { e with status := SOSStatus.cancelled, cancelledAt := some now })
    db

/-- Function `mark_sos_sent`: finds the first event with the given id,
with no check of its current status, and sets status `sent` and
`sent_at = now`. -/
def mark_sos_sent (now : Int) (sosId : Nat) (db : List SOSEvent) :
    Option SOSEvent × List SOSEvent :=
  updateFirst (fun e => e.id == sosId)
    (fun e => { e with status := SOSStatus.sent, sentAt := some now })
    db

/-- Function `get_sos_event`: lookup of an event by id. -/
def get_sos_event (sosId : Nat) (db : List SOSEvent) : Option SOSEvent :=
  db.find? (fun e => e.id == sosId)

/-- Function `is_sos_still_active`: true iff the event exists and its
status is `triggered`. -/
def is_sos_still_active (sosId : Nat) (db : List SOSEvent) : Bool :=
  match get_sos_event sosId db with
  | none => false
  | some e => e.status == SOSStatus.triggered

/-- The row returned by `order_by(triggered_at.desc()).first()`: the first
row carrying the maximal `triggered_at` value. -/
def firstByLatestTrigger : List SOSEvent → Option SOSEvent
  | [] => none
  | e :: rest =>
    match firstByLatestTrigger rest with
    | none => some e
    | some m => if m.triggeredAt > e.triggeredAt then some m else some e

/-- Function `get_active_sos`: the most recently triggered event of the
user that still has status `triggered`. -/
def get_active_sos (userId : Nat) (db : List SOSEvent) : Option SOSEvent :=
  firstByLatestTrigger
    (db.filter (fun e => e.userId == userId && e.status == SOSStatus.triggered))

theorem firstByLatestTrigger_eq_none :
    ∀ l : List SOSEvent, firstByLatestTrigger l = none → l = [] := by
  intro l h
  cases l with
  | nil => rfl
  | cons e rest =>
    exfalso
    simp only [firstByLatestTrigger] at h
    cases hr : firstByLatestTrigger rest with
    | none => rw [hr] at h; simp at h
    | some m =>
      rw [hr] at h
      by_cases hgt : m.triggeredAt > e.triggeredAt <;> simp [hgt] at h

theorem firstByLatestTrigger_spec :
    ∀ (l : List SOSEvent) (e : SOSEvent), firstByLatestTrigger l = some e →
      e ∈ l ∧ ∀ x ∈ l, x.triggeredAt ≤ e.triggeredAt := by
  intro l
  induction l with
  | nil => intro e h; simp [firstByLatestTrigger] at h
  | cons a rest ih =>
    intro e h
    simp only [firstByLatestTrigger] at h
    cases hr : firstByLatestTrigger rest with
    | none =>
      rw [hr] at h
      have hrest : rest = [] := firstByLatestTrigger_eq_none rest hr
      subst hrest
      simp at h
      subst h
      simp
    | some m =>
      rw [hr] at h
      have hm := ih m hr
      by_cases hgt : m.triggeredAt > a.triggeredAt
      · simp [hgt] at h
        subst h
        refine ⟨List.mem_cons_of_mem a hm.1, ?_⟩
        intro x hx
        rcases List.mem_cons.mp hx with hxa | hxr
        · subst hxa; exact le_of_lt hgt
        · exact hm.2 x hxr
      · simp [hgt] at h
        subst h
        refine ⟨List.mem_cons_self _ _, ?_⟩
        intro x hx
        rcases List.mem_cons.mp hx with hxa | hxr
        · subst hxa; exact le_refl _
        · exact le_trans (hm.2 x hxr) (le_of_not_gt hgt)

/-! ## Claims C1 and C10: SOS state machine -/

/-- C1 counterexample: `mark_sos_sent` does not check the current status.
Applied to an event that is already in the final status `cancelled`, it
still transitions the event to `sent` and sets `sent_at`, so the claim
that `markSent` transitions only from `triggered` and that a final status
never changes again is false on the code. -/
theorem c1_mark_sent_ignores_cancelled_counterexample :
    (mark_sos_sent 10 1
      [{ id := 1, userId := 1, triggeredAt := 0, cancelledAt := some 5,
         status := SOSStatus.cancelled }]).1 =
      some { id := 1, userId := 1, triggeredAt := 0, cancelledAt := some 5,
             sentAt := some 10, status := SOSStatus.sent } := by
  decide

/-- C1 (amended): `cancel_sos` succeeds only on an event of the user that
is currently `triggered`, setting status `cancelled` and `cancelled_at`;
a second cancel attempt after a successful cancel returns none; and
`mark_sos_sent` sets status `sent` and `sent_at` unconditionally on the
first row with the given id, even one already cancelled — the
triggered-only guard lives in the dispatch job via `is_sos_still_active`,
not in `mark_sos_sent` itself. -/
theorem c1_sos_status_transitions
    (db : List SOSEvent) (e0 : SOSEvent) (now1 now2 now3 : Int)
    (userId sosId : Nat)
    (hmem : e0 ∈ db) (hid : e0.id = sosId) (huid : e0.userId = userId)
    (hst : e0.status = SOSStatus.triggered)
    (hnodup : (db.map SOSEvent.id).Nodup) :
    (∀ dbx : List SOSEvent, (∀ x ∈ dbx, x.status ≠ SOSStatus.triggered) →
      (cancel_sos now1 userId sosId dbx).1 = none)
    ∧ ∃ e1 db1,
        cancel_sos now1 userId sosId db = (some e1, db1)
        ∧ e1.status = SOSStatus.cancelled ∧ e1.cancelledAt = some now1
        ∧ (cancel_sos now2 userId sosId db1).1 = none
        ∧ ∃ e2, (mark_sos_sent now3 sosId db1).1 = some e2
            ∧ e2.status = SOSStatus.sent ∧ e2.sentAt = some now3 := by
  constructor
  · intro dbx hx
    have h := updateFirst_of_forall_neg
      (fun e => e.id == sosId && e.userId == userId &&
        e.status == SOSStatus.triggered)
      (fun e => { e with status := SOSStatus.cancelled, cancelledAt := some now1 })
      dbx
      (by
        intro z hz
        have := hx z hz
        simp [this])
    simp only [cancel_sos, h]
  · obtain ⟨l1, l2, rfl⟩ := List.append_of_mem hmem
    rw [List.map_append, List.map_cons] at hnodup
    obtain ⟨hn1, hn2, hdisj⟩ := List.nodup_append.mp hnodup
    have he0l2 : e0.id ∉ l2.map SOSEvent.id := (List.nodup_cons.mp hn2).1
    have hl1 : ∀ z ∈ l1, z.id ≠ sosId := by
      intro z hz heq
      exact hdisj (List.mem_map_of_mem SOSEvent.id hz)
        (by rw [heq, ← hid]; exact List.mem_cons_self _ _)
    have hl2 : ∀ z ∈ l2, z.id ≠ sosId := by
      intro z hz heq
      exact he0l2 (by rw [hid, ← heq]; exact List.mem_map_of_mem SOSEvent.id hz)
    have hpredl1 : ∀ z ∈ l1,
        (z.id == sosId && z.userId == userId &&
          z.status == SOSStatus.triggered) = false := by
      intro z hz
      have : (z.id == sosId) = false := by simpa using hl1 z hz
      simp [this]
    have hpred0 : (e0.id == sosId && e0.userId == userId &&
        e0.status == SOSStatus.triggered) = true := by
      simp [hid, huid, hst]
    have hc := updateFirst_append
      (fun e => e.id == sosId && e.userId == userId &&
        e.status == SOSStatus.triggered)
      (fun e => { e with status := SOSStatus.cancelled, cancelledAt := some now1 })
      e0 l1 l2 hpredl1 hpred0
    refine ⟨({ e0 with
        status := SOSStatus.cancelled,
        cancelledAt := some now1 } : SOSEvent),
      l1 ++ ({ e0 with
        status := SOSStatus.cancelled,
        cancelledAt := some now1 } : SOSEvent) :: l2, ?_, rfl, rfl, ?_, ?_⟩
    · simpa [cancel_sos] using hc
    · have h := updateFirst_of_forall_neg
        (fun e => e.id == sosId && e.userId == userId &&
          e.status == SOSStatus.triggered)
        (fun e => { e with status := SOSStatus.cancelled, cancelledAt := some now2 })
        (l1 ++ { e0 with
          status := SOSStatus.cancelled,
          cancelledAt := some now1 } :: l2)
        (by
          intro z hz
          rcases List.mem_append.mp hz with hz1 | hz2
          · exact hpredl1 z hz1
          · rcases List.mem_cons.mp hz2 with hze | hzl2
            · subst hze; simp
            · have : (z.id == sosId) = false := by simpa using hl2 z hzl2
              simp [this])
      simp only [cancel_sos, h]
    · have hpredl1m : ∀ z ∈ l1, (z.id == sosId) = false := by
        intro z hz
        simpa using hl1 z hz
      have hm := updateFirst_append (fun e => e.id == sosId)
        (fun e => { e with status := SOSStatus.sent, sentAt := some now3 })
        { e0 with status := SOSStatus.cancelled, cancelledAt := some now1 }
        l1 l2 hpredl1m (by simp [hid])
      refine ⟨{ e0 with
        status := SOSStatus.sent,
        sentAt := some now3,
        cancelledAt := some now1 }, ?_, rfl, rfl⟩
      simp only [mark_sos_sent, hm]

/-- C1 witness: a concrete triggered event is cancelled, a second cancel
returns none, and a subsequent unconditional `mark_sos_sent` flips the
cancelled event to `sent`. -/
theorem c1_sos_status_transitions_witness :
    (∀ dbx : List SOSEvent, (∀ x ∈ dbx, x.status ≠ SOSStatus.triggered) →
      (cancel_sos 20 5 1 dbx).1 = none)
    ∧ ∃ e1 db1,
        cancel_sos 20 5 1
            [{ id := 1, userId := 5, triggeredAt := 0,
               status := SOSStatus.triggered }] = (some e1, db1)
        ∧ e1.status = SOSStatus.cancelled ∧ e1.cancelledAt = some 20
        ∧ (cancel_sos 30 5 1 db1).1 = none
        ∧ ∃ e2, (mark_sos_sent 40 1 db1).1 = some e2
            ∧ e2.status = SOSStatus.sent ∧ e2.sentAt = some 40 :=
  c1_sos_status_transitions
    [{ id := 1, userId := 5, triggeredAt := 0, status := SOSStatus.triggered }]
    { id := 1, userId := 5, triggeredAt := 0, status := SOSStatus.triggered }
    20 30 40 5 1 (by decide) rfl rfl rfl (by decide)

/-- C10: triggering an SOS only verifies the user and appends one fresh
event with status `triggered`; every existing event is left untouched, so
several events of one user may be `triggered` at once, and
`get_active_sos` then returns a triggered event of the user whose
`triggered_at` is maximal among them. -/
theorem c10_trigger_frame_and_active_event
    (users : List User) (newId : Nat) (now : Int) (userId : Nat)
    (lat lng : Option Int) (db : List SOSEvent) (u : User)
    (hu : u ∈ users) (huid : u.id = userId) :
    (∃ e, trigger_sos users newId now userId lat lng db = (some e, db ++ [e])
        ∧ e.status = SOSStatus.triggered ∧ e.triggeredAt = now
        ∧ e.userId = userId ∧ e.id = newId)
    ∧ (∀ e, get_active_sos userId db = some e →
        e ∈ db ∧ e.userId = userId ∧ e.status = SOSStatus.triggered
        ∧ ∀ x ∈ db, x.userId = userId → x.status = SOSStatus.triggered →
            x.triggeredAt ≤ e.triggeredAt) := by
  constructor
  · have hsome : (users.find? (fun v => v.id == userId)).isSome := by
      rw [List.find?_isSome]
      exact ⟨u, hu, by simp [huid]⟩
    cases hfind : users.find? (fun v => v.id == userId) with
    | none => rw [hfind] at hsome; simp at hsome
    | some w =>
      refine ⟨({
        id := newId,
        userId := userId,
        triggeredAt := now,
        locationLat := lat,
        locationLng := lng,
        status := SOSStatus.triggered } : SOSEvent), ?_, rfl, rfl, rfl, rfl⟩
      simp [trigger_sos, hfind]
  · intro e he
    have hspec := firstByLatestTrigger_spec _ e he
    have hmem := List.mem_filter.mp hspec.1
    have hprops : e.userId = userId ∧ e.status = SOSStatus.triggered := by
      have := hmem.2
      simp at this
      exact this
    refine ⟨hmem.1, hprops.1, hprops.2, ?_⟩
    intro x hx hxu hxs
    exact hspec.2 x (List.mem_filter.mpr ⟨hx, by simp [hxu, hxs]⟩)

/-- C10 witness: with one existing triggered event, a second trigger
appends a fresh triggered event and leaves the first one in place, and
`get_active_sos` returns a maximal triggered event of the user. -/
theorem c10_trigger_frame_and_active_event_witness :
    (∃ e, trigger_sos [{ id := 5 }] 2 100 5 none none
          [{ id := 1, userId := 5, triggeredAt := 0,
             status := SOSStatus.triggered }] =
        (some e,
          [{ id := 1, userId := 5, triggeredAt := 0,
             status := SOSStatus.triggered }] ++ [e])
      ∧ e.status = SOSStatus.triggered ∧ e.triggeredAt = 100
      ∧ e.userId = 5 ∧ e.id = 2)
    ∧ (∀ e, get_active_sos 5
          [{ id := 1, userId := 5, triggeredAt := 0,
             status := SOSStatus.triggered }] = some e →
        e ∈ [{ id := 1, userId := 5, triggeredAt := 0,
               status := SOSStatus.triggered }] ∧ e.userId = 5
        ∧ e.status = SOSStatus.triggered
        ∧ ∀ x ∈ [({ id := 1, userId := 5, triggeredAt := 0,
                    status := SOSStatus.triggered } : SOSEvent)], x.userId = 5 →
            x.status = SOSStatus.triggered → x.triggeredAt ≤ e.triggeredAt) :=
  c10_trigger_frame_and_active_event [{ id := 5 }] 2 100 5 none none
    [{ id := 1, userId := 5, triggeredAt := 0, status := SOSStatus.triggered }]
    { id := 5 } (by decide) rfl

/-! ## Liveness engine (`src/checkin/service.py`) -/

/-- Function `calculate_next_check_in_due`: the next deadline is the last
check-in plus the cycle in days, or none when there is no prior
check-in. -/
def calculate_next_check_in_due (lastCheckIn : Option Int) (cycleDays : Int) :
    Option Int :=
  match lastCheckIn with
  | none => none
  | some t => some (t + cycleDays * 86400)

/-- Function `is_check_in_overdue`: false when there is no prior check-in,
otherwise true iff `now` is strictly past the last check-in plus the cycle
in days plus the grace period in hours. The wall clock is passed in as
`now` (seconds). -/
def is_check_in_overdue (lastCheckIn : Option Int) (cycleDays graceHours : Int)
    (now : Int) : Bool :=
  match lastCheckIn with
  | none => false
  | some t => decide (now > t + cycleDays * 86400 + graceHours * 3600)

/-- C4: a user with no prior check-in is never overdue; otherwise overdue
holds iff now is strictly past last check-in plus cycle days plus grace
hours, so at the exact deadline instant it is still false, and with cycle
7 days and grace 48 hours it is false at T plus 7d 47h59m and true at
T plus 7d 48h00m01s. -/
theorem c4_overdue_threshold (t cycleDays graceHours now : Int) :
    is_check_in_overdue none cycleDays graceHours now = false
    ∧ (is_check_in_overdue (some t) cycleDays graceHours now = true ↔
        now > t + cycleDays * 86400 + graceHours * 3600)
    ∧ is_check_in_overdue (some t) 7 48 (t + 7 * 86400 + 48 * 3600) = false
    ∧ is_check_in_overdue (some t) 7 48 (t + 7 * 86400 + 47 * 3600 + 59 * 60)
        = false
    ∧ is_check_in_overdue (some t) 7 48 (t + 7 * 86400 + 48 * 3600 + 1)
        = true := by
  refine ⟨rfl, by simp [is_check_in_overdue], ?_, ?_, ?_⟩ <;>
    · simp only [is_check_in_overdue, decide_eq_false_iff_not,
        decide_eq_true_eq, gt_iff_lt, not_lt]
      omega

/-- C4 witness: the threshold behavior at the concrete baseline 0. -/
theorem c4_overdue_threshold_witness :
    is_check_in_overdue none 7 48 777601 = false
    ∧ (is_check_in_overdue (some 0) 7 48 777601 = true ↔
        (777601 : Int) > 0 + 7 * 86400 + 48 * 3600)
    ∧ is_check_in_overdue (some 0) 7 48 (0 + 7 * 86400 + 48 * 3600) = false
    ∧ is_check_in_overdue (some 0) 7 48 (0 + 7 * 86400 + 47 * 3600 + 59 * 60)
        = false
    ∧ is_check_in_overdue (some 0) 7 48 (0 + 7 * 86400 + 48 * 3600 + 1)
        = true :=
  c4_overdue_threshold 0 7 48 777601

/-! ## Reminder policy engine (`src/settings/service.py`) -/

/-- Row of the `reminder_settings` table (`src/settings/models.py`). Times
of day are counted in minutes after midnight; the Python `time` values
compare exactly like these minute counts. -/
structure ReminderSettings where
  userId : Nat
  reminderHoursBefore : List Int := [48, 24, 12]
  quietHoursStart : Option Nat := none
  quietHoursEnd : Option Nat := none
  preferredTime : Option Nat := none
  pushEnabled : Bool := true
  emailEnabled : Bool := false
  customMessage : Option String := none
deriving Repr, DecidableEq

/-- Partial update payload `ReminderSettingsRequest`
(`src/settings/schemas.py`): a field that is absent from the request is
`none`. -/
structure ReminderSettingsRequest where
  reminderHoursBefore : Option (List Int) := none
  quietHoursStart : Option Nat := none
  quietHoursEnd : Option Nat := none
  preferredTime : Option Nat := none
  pushEnabled : Option Bool := none
  emailEnabled : Option Bool := none
  customMessage : Option String := none
deriving Repr, DecidableEq

/-- Function `is_in_quiet_hours`: false when either bound is unset; for a
same-day range (start at most end) true iff the time is between the
bounds inclusively; for an overnight range (start after end) true iff the
time is at or after the start or at or before the end. -/
def is_in_quiet_hours (settings : ReminderSettings) (currentTime : Nat) :
    Bool :=
  match settings.quietHoursStart, settings.quietHoursEnd with
  | some s, some e =>
    if s ≤ e then decide (s ≤ currentTime ∧ currentTime ≤ e)
    else decide (currentTime ≥ s ∨ currentTime ≤ e)
  | _, _ => false

/-- Function `update_reminder_settings`, restricted to its field-update
logic on the existing settings row: only provided fields change; provided
reminder hours are filtered to the range 1..168 and stored sorted
descending only when at least one value survives the filter (the source
writes `if valid_hours:` so an empty survivor list leaves the stored list
as it was); a provided custom message is truncated to 100 characters and
an empty one clears the field. -/
def update_reminder_settings (data : ReminderSettingsRequest)
    (settings : ReminderSettings) : ReminderSettings where
  userId := settings.userId
  reminderHoursBefore :=
    match data.reminderHoursBefore with
    | none => settings.reminderHoursBefore
    | some hs =>
      let validHours := hs.filter (fun h => decide (1 ≤ h ∧ h ≤ 168))
      if validHours = [] then settings.reminderHoursBefore
      else List.insertionSort (fun a b => a ≥ b) validHours
  quietHoursStart :=
    match data.quietHoursStart with
    | none => settings.quietHoursStart
    | some v => some v
  quietHoursEnd :=
    match data.quietHoursEnd with
    | none => settings.quietHoursEnd
    | some v => some v
  preferredTime :=
    match data.preferredTime with
    | none => settings.preferredTime
    | some v => some v
  pushEnabled :=
    match data.pushEnabled with
    | none => settings.pushEnabled
    | some v => v
  emailEnabled :=
    match data.emailEnabled with
    | none => settings.emailEnabled
    | some v => v
  customMessage :=
    match data.customMessage with
    | none => settings.customMessage
    | some m => if m = "" then none else some (m.take 100)

/-- C7: quiet hours are never active when either bound is unset; a
same-day window contains exactly the times between the bounds; an
overnight window wraps around midnight; in particular for a 22:00 to
08:00 window, 23:00 and 07:00 are quiet while 12:00, 21:59 and 08:01 are
not (times in minutes after midnight). -/
theorem c7_quiet_hours_wraparound (st : ReminderSettings) (s e t : Nat) :
    ((st.quietHoursStart = none ∨ st.quietHoursEnd = none) →
      is_in_quiet_hours st t = false)
    ∧ (s ≤ e →
        (is_in_quiet_hours { st with
            quietHoursStart := some s, quietHoursEnd := some e } t = true ↔
          (s ≤ t ∧ t ≤ e)))
    ∧ (s > e →
        (is_in_quiet_hours { st with
            quietHoursStart := some s, quietHoursEnd := some e } t = true ↔
          (t ≥ s ∨ t ≤ e)))
    ∧ is_in_quiet_hours { st with
        quietHoursStart := some 1320, quietHoursEnd := some 480 } 1380 = true
    ∧ is_in_quiet_hours { st with
        quietHoursStart := some 1320, quietHoursEnd := some 480 } 420 = true
    ∧ is_in_quiet_hours { st with
        quietHoursStart := some 1320, quietHoursEnd := some 480 } 720 = false
    ∧ is_in_quiet_hours { st with
        quietHoursStart := some 1320, quietHoursEnd := some 480 } 1319 = false
    ∧ is_in_quiet_hours { st with
        quietHoursStart := some 1320, quietHoursEnd := some 480 } 481
        = false := by
  refine ⟨?_, ?_, ?_, rfl, rfl, rfl, rfl, rfl⟩
  · rintro (h | h) <;> simp [is_in_quiet_hours, h]
  · intro hle
    simp [is_in_quiet_hours, hle]
  · intro hgt
    simp [is_in_quiet_hours, Nat.not_le_of_lt hgt, Nat.not_le.mpr hgt]

/-- C7 witness: concrete unset-bound, same-day and overnight windows. -/
theorem c7_quiet_hours_wraparound_witness :
    is_in_quiet_hours { userId := 0 } 100 = false
    ∧ (is_in_quiet_hours {
        userId := 0,
        quietHoursStart := some 540,
        quietHoursEnd := some 1020 } 600 = true ↔ (540 ≤ 600 ∧ 600 ≤ 1020))
    ∧ (is_in_quiet_hours {
        userId := 0,
        quietHoursStart := some 1320,
        quietHoursEnd := some 480 } 1380 = true ↔ (1380 ≥ 1320 ∨ 1380 ≤ 480)) :=
  ⟨(c7_quiet_hours_wraparound { userId := 0 } 0 0 100).1 (Or.inl rfl),
   (c7_quiet_hours_wraparound { userId := 0 } 540 1020 600).2.1 (by decide),
   (c7_quiet_hours_wraparound { userId := 0 } 1320 480 1380).2.2.1 (by decide)⟩

/-- C9: when every entry of a provided reminder-hours list lies outside
the range 1..168, the stored list keeps its previous value and is never
replaced by an empty list, while every other field provided in the same
partial update is still applied. -/
theorem c9_invalid_reminder_hours_keep_previous
    (settings : ReminderSettings) (data : ReminderSettingsRequest)
    (hs : List Int) (hprov : data.reminderHoursBefore = some hs)
    (hout : ∀ h ∈ hs, h < 1 ∨ 168 < h) :
    (update_reminder_settings data settings).reminderHoursBefore
        = settings.reminderHoursBefore
    ∧ (∀ v, data.quietHoursStart = some v →
        (update_reminder_settings data settings).quietHoursStart = some v)
    ∧ (∀ v, data.quietHoursEnd = some v →
        (update_reminder_settings data settings).quietHoursEnd = some v)
    ∧ (∀ v, data.preferredTime = some v →
        (update_reminder_settings data settings).preferredTime = some v)
    ∧ (∀ v, data.pushEnabled = some v →
        (update_reminder_settings data settings).pushEnabled = v)
    ∧ (∀ v, data.emailEnabled = some v →
        (update_reminder_settings data settings).emailEnabled = v)
    ∧ (∀ m, data.customMessage = some m →
        (update_reminder_settings data settings).customMessage
          = if m = "" then none else some (m.take 100)) := by
  have hfilter : hs.filter (fun h => decide (1 ≤ h ∧ h ≤ 168)) = [] := by
    rw [List.filter_eq_nil_iff]
    intro a ha
    have := hout a ha
    simp only [decide_eq_true_eq]
    omega
  refine ⟨?_, ?_, ?_, ?_, ?_, ?_, ?_⟩
  · simp only [update_reminder_settings, hprov]
    rw [hfilter]
    simp
  · intro v hv; simp [update_reminder_settings, hv]
  · intro v hv; simp [update_reminder_settings, hv]
  · intro v hv; simp [update_reminder_settings, hv]
  · intro v hv; simp [update_reminder_settings, hv]
  · intro v hv; simp [update_reminder_settings, hv]
  · intro m hm; simp [update_reminder_settings, hm]

set_option maxRecDepth 10000 in
/-- C9 witness: an update whose reminder hours are all out of range keeps
the default stored list while the provided push flag and custom message
are applied. -/
theorem c9_invalid_reminder_hours_keep_previous_witness :
    (update_reminder_settings
        { reminderHoursBefore := some [0, 200], pushEnabled := some false,
          customMessage := some "hello" }
        { userId := 0 }).reminderHoursBefore = [48, 24, 12]
    ∧ (update_reminder_settings
        { reminderHoursBefore := some [0, 200], pushEnabled := some false,
          customMessage := some "hello" }
        { userId := 0 }).pushEnabled = false
    ∧ (update_reminder_settings
        { reminderHoursBefore := some [0, 200], pushEnabled := some false,
          customMessage := some "hello" }
        { userId := 0 }).customMessage = some "hello" := by
  have h := c9_invalid_reminder_hours_keep_previous { userId := 0 }
    { reminderHoursBefore := some [0, 200], pushEnabled := some false,
      customMessage := some "hello" }
    [0, 200] rfl (by decide)
  refine ⟨h.1, h.2.2.2.2.1 false rfl, ?_⟩
  have hm := h.2.2.2.2.2.2 "hello" rfl
  simpa using hm

/-! ## Consent subsystem (`src/contacts/service.py`) -/

/-- Ordering of contacts by ascending priority, the sort key of
`order_by(EmergencyContact.priority)`. -/
def priorityLE (a b : EmergencyContact) : Prop := a.priority ≤ b.priority

instance : DecidableRel priorityLE :=
  fun a b => inferInstanceAs (Decidable (a.priority ≤ b.priority))

instance : IsTotal EmergencyContact priorityLE :=
  ⟨fun a b => Nat.le_total a.priority b.priority⟩

instance : IsTrans EmergencyContact priorityLE :=
  ⟨fun _ _ _ hab hbc => Nat.le_trans hab hbc⟩

/-- Function `get_active_contacts`: the contacts of the user whose status
is `approved` and that are verified, ordered by priority ascending. -/
def get_active_contacts (userId : Nat) (db : List EmergencyContact) :
    List EmergencyContact :=
  List.insertionSort priorityLE
    (db.filter (fun c => c.userId == userId &&
      c.status == ConsentStatus.approved && c.isVerified))

/-- Function `get_contact_by_consent_token`: the first contact whose
consent token equals the given string and whose consent expiry lies
strictly in the future; none otherwise (an unset expiry never
matches). -/
def get_contact_by_consent_token (now : Int) (token : String)
    (db : List EmergencyContact) : Option EmergencyContact :=
  db.find? (fun c => c.consentToken == some token &&
    (match c.consentExpiresAt with
     | some e => decide (e > now)
     | none => false))

/-- Function `process_consent`: resolves the contact by consent token (the
same filter as `get_contact_by_consent_token`), then sets the status to
`approved` or `rejected`, stamps `consent_responded_at`, clears the
consent token, and on approval also marks the contact verified. -/
def process_consent (now : Int) (token : String) (approved : Bool)
    (db : List EmergencyContact) :
    Option EmergencyContact × List EmergencyContact :=
  updateFirst
    (fun c => c.consentToken == some token &&
      (match c.consentExpiresAt with
       | some e => decide (e > now)
       | none => false))
    (fun c =>
      let c1 := { c with
        status := if approved then ConsentStatus.approved
          else ConsentStatus.rejected,
        consentRespondedAt := some now,
        consentToken := none }
      if approved then { c1 with isVerified := true } else c1)
    db

/-- C3: every contact returned by `get_active_contacts` belongs to the
user, has status `approved` and is verified — no pending, rejected,
expired or unverified contact is ever included — and the returned list is
ordered by priority ascending. -/
theorem c3_active_contacts_consent_gating (userId : Nat)
    (db : List EmergencyContact) :
    (∀ c ∈ get_active_contacts userId db,
      c.userId = userId ∧ c.status = ConsentStatus.approved
        ∧ c.isVerified = true)
    ∧ (get_active_contacts userId db).Pairwise priorityLE := by
  constructor
  · intro c hc
    have hmem : c ∈ db.filter (fun c => c.userId == userId &&
        c.status == ConsentStatus.approved && c.isVerified) :=
      (List.perm_insertionSort priorityLE _).subset hc
    have hp := (List.mem_filter.mp hmem).2
    simp at hp
    exact ⟨hp.1.1, hp.1.2, hp.2⟩
  · exact List.sorted_insertionSort priorityLE _

/-- Sample approved and verified contact used by the C3 witness. -/
def sampleApprovedContact : EmergencyContact where
  id := 3
  userId := 7
  priority := 2
  isVerified := true
  status := ConsentStatus.approved

/-- Sample contact pool used by the C3 witness: one pending, one approved
but unverified, and one approved verified contact. -/
def sampleContactPool : List EmergencyContact :=
  [{ id := 1, userId := 7, priority := 1, status := ConsentStatus.pending },
   { id := 2, userId := 7, priority := 3, isVerified := false,
     status := ConsentStatus.approved },
   sampleApprovedContact]

/-- C3 witness: in the sample pool the approved verified contact is a
member of the returned list and satisfies the gating predicate, and the
returned list is priority-ordered. -/
theorem c3_active_contacts_consent_gating_witness :
    (sampleApprovedContact.userId = 7
      ∧ sampleApprovedContact.status = ConsentStatus.approved
      ∧ sampleApprovedContact.isVerified = true)
    ∧ (get_active_contacts 7 sampleContactPool).Pairwise priorityLE :=
  ⟨(c3_active_contacts_consent_gating 7 sampleContactPool).1
      sampleApprovedContact (by decide),
   (c3_active_contacts_consent_gating 7 sampleContactPool).2⟩

/-- C5: `process_consent` resolves the contact whose consent token equals
the given string and whose expiry is in the future, returning none when no
contact matches; on success it sets the status to approved or rejected,
stamps the response time, clears the token, and on approval marks the
contact verified; consequently a second call with the same token returns
none and the contact left in the table carries no consent token. -/
theorem c5_consent_token_single_use
    (db : List EmergencyContact) (c0 : EmergencyContact)
    (now1 now2 : Int) (token : String) (ap ap2 : Bool)
    (hmem : c0 ∈ db) (htok : c0.consentToken = some token)
    (hexp : ∃ e, c0.consentExpiresAt = some e ∧ e > now1)
    (huniq : (db.filterMap EmergencyContact.consentToken).Nodup) :
    (∀ dbx : List EmergencyContact,
      get_contact_by_consent_token now1 token dbx = none →
      process_consent now1 token ap dbx = (none, dbx))
    ∧ ∃ c1 db1,
        process_consent now1 token ap db = (some c1, db1)
        ∧ c1.status = (if ap then ConsentStatus.approved
            else ConsentStatus.rejected)
        ∧ c1.consentRespondedAt = some now1
        ∧ c1.consentToken = none
        ∧ c1.isVerified = (if ap then true else c0.isVerified)
        ∧ c1 ∈ db1
        ∧ get_contact_by_consent_token now2 token db1 = none
        ∧ (process_consent now2 token ap2 db1).1 = none := by
  obtain ⟨exp, hexpEq, hexpGt⟩ := hexp
  constructor
  · intro dbx hnone
    have hall := List.find?_eq_none.mp hnone
    exact updateFirst_of_forall_neg _ _ dbx
      (fun z hz => Bool.eq_false_iff.mpr (hall z hz))
  · obtain ⟨l1, l2, rfl⟩ := List.append_of_mem hmem
    rw [List.filterMap_append] at huniq
    rw [show (c0 :: l2).filterMap EmergencyContact.consentToken
        = token :: l2.filterMap EmergencyContact.consentToken by
      simp [List.filterMap_cons, htok]] at huniq
    obtain ⟨hn1, hn2, hdisj⟩ := List.nodup_append.mp huniq
    have htokl2 : token ∉ l2.filterMap EmergencyContact.consentToken :=
      (List.nodup_cons.mp hn2).1
    have hl1 : ∀ z ∈ l1, (z.consentToken == some token) = false := by
      intro z hz
      rw [beq_eq_false_iff_ne]
      intro hzeq
      exact hdisj (List.mem_filterMap.mpr ⟨z, hz, hzeq⟩)
        (List.mem_cons_self _ _)
    have hl2 : ∀ z ∈ l2, (z.consentToken == some token) = false := by
      intro z hz
      rw [beq_eq_false_iff_ne]
      intro hzeq
      exact htokl2 (List.mem_filterMap.mpr ⟨z, hz, hzeq⟩)
    have hpredl1 : ∀ z ∈ l1, (z.consentToken == some token &&
        (match z.consentExpiresAt with
         | some e => decide (e > now1)
         | none => false)) = false := by
      intro z hz
      rw [hl1 z hz]
      rfl
    have hpred0 : (c0.consentToken == some token &&
        (match c0.consentExpiresAt with
         | some e => decide (e > now1)
         | none => false)) = true := by
      simp [htok, hexpEq, hexpGt]
    have hc := updateFirst_append
      (fun c => c.consentToken == some token &&
        (match c.consentExpiresAt with
         | some e => decide (e > now1)
         | none => false))
      (fun c =>
        let c1 := { c with
          status := if ap then ConsentStatus.approved
            else ConsentStatus.rejected,
          consentRespondedAt := some now1,
          consentToken := none }
        if ap then { c1 with isVerified := true } else c1)
      c0 l1 l2 hpredl1 hpred0
    cases ap with
    | true =>
      refine ⟨({ c0 with
          status := ConsentStatus.approved,
          consentRespondedAt := some now1,
          consentToken := none,
          isVerified := true } : EmergencyContact),
        l1 ++ ({ c0 with
          status := ConsentStatus.approved,
          consentRespondedAt := some now1,
          consentToken := none,
          isVerified := true } : EmergencyContact) :: l2,
        by simpa [process_consent] using hc,
        rfl, rfl, rfl, rfl, ?_, ?_, ?_⟩
      · exact List.mem_append.mpr (Or.inr (List.mem_cons_self _ _))
      · rw [get_contact_by_consent_token, List.find?_eq_none]
        intro z hz
        rcases List.mem_append.mp hz with hz1 | hz2
        · simp [hl1 z hz1]
        · rcases List.mem_cons.mp hz2 with hze | hzl2
          · subst hze; simp
          · simp [hl2 z hzl2]
      · have h := updateFirst_of_forall_neg
          (fun (c : EmergencyContact) => c.consentToken == some token &&
            (match c.consentExpiresAt with
             | some e => decide (e > now2)
             | none => false))
          (fun (c : EmergencyContact) =>
            let c1 := { c with
              status := if ap2 then ConsentStatus.approved
                else ConsentStatus.rejected,
              consentRespondedAt := some now2,
              consentToken := none }
            if ap2 then { c1 with isVerified := true } else c1)
          (l1 ++ ({ c0 with
            status := ConsentStatus.approved,
            consentRespondedAt := some now1,
            consentToken := none,
            isVerified := true } : EmergencyContact) :: l2)
          (by
            intro z hz
            rcases List.mem_append.mp hz with hz1 | hz2
            · simp [hl1 z hz1]
            · rcases List.mem_cons.mp hz2 with hze | hzl2
              · subst hze; simp
              · simp [hl2 z hzl2])
        simp only [process_consent, h]
    | false =>
      refine ⟨({ c0 with
          status := ConsentStatus.rejected,
          consentRespondedAt := some now1,
          consentToken := none } : EmergencyContact),
        l1 ++ ({ c0 with
          status := ConsentStatus.rejected,
          consentRespondedAt := some now1,
          consentToken := none } : EmergencyContact) :: l2,
        by simpa [process_consent] using hc,
        rfl, rfl, rfl, rfl, ?_, ?_, ?_⟩
      · exact List.mem_append.mpr (Or.inr (List.mem_cons_self _ _))
      · rw [get_contact_by_consent_token, List.find?_eq_none]
        intro z hz
        rcases List.mem_append.mp hz with hz1 | hz2
        · simp [hl1 z hz1]
        · rcases List.mem_cons.mp hz2 with hze | hzl2
          · subst hze; simp
          · simp [hl2 z hzl2]
      · have h := updateFirst_of_forall_neg
          (fun (c : EmergencyContact) => c.consentToken == some token &&
            (match c.consentExpiresAt with
             | some e => decide (e > now2)
             | none => false))
          (fun (c : EmergencyContact) =>
            let c1 := { c with
              status := if ap2 then ConsentStatus.approved
                else ConsentStatus.rejected,
              consentRespondedAt := some now2,
              consentToken := none }
            if ap2 then { c1 with isVerified := true } else c1)
          (l1 ++ ({ c0 with
            status := ConsentStatus.rejected,
            consentRespondedAt := some now1,
            consentToken := none } : EmergencyContact) :: l2)
          (by
            intro z hz
            rcases List.mem_append.mp hz with hz1 | hz2
            · simp [hl1 z hz1]
            · rcases List.mem_cons.mp hz2 with hze | hzl2
              · subst hze; simp
              · simp [hl2 z hzl2])
        simp only [process_consent, h]

/-- Sample contact carrying a live consent token, used by the C5
witness. -/
def samplePendingContact : EmergencyContact where
  id := 1
  userId := 7
  status := ConsentStatus.pending
  consentToken := some "tok"
  consentExpiresAt := some 100

/-- C5 witness: on a one-row table the consent token resolves once, the
approval is recorded with the token cleared, and the replayed call
returns none; on an empty table the call is a no-op returning none. -/
theorem c5_consent_token_single_use_witness :
    process_consent 50 "tok" true [] = (none, [])
    ∧ ∃ c1 db1,
        process_consent 50 "tok" true [samplePendingContact] = (some c1, db1)
        ∧ c1.status = (if true then ConsentStatus.approved
            else ConsentStatus.rejected)
        ∧ c1.consentRespondedAt = some 50
        ∧ c1.consentToken = none
        ∧ c1.isVerified = (if true then true else samplePendingContact.isVerified)
        ∧ c1 ∈ db1
        ∧ get_contact_by_consent_token 60 "tok" db1 = none
        ∧ (process_consent 60 "tok" true db1).1 = none :=
  ⟨(c5_consent_token_single_use [samplePendingContact] samplePendingContact
      50 60 "tok" true true (by decide) rfl ⟨100, rfl, by decide⟩
      (by decide)).1 [] rfl,
   (c5_consent_token_single_use [samplePendingContact] samplePendingContact
      50 60 "tok" true true (by decide) rfl ⟨100, rfl, by decide⟩
      (by decide)).2⟩

/-! ## Token subsystem (quick check-in) -/

/-- Modelled from the spec: the function `verify_and_consume_session_token`
is imported from `src/checkin/service.py` by `src/scheduler/tasks.py` and
the test suite, but its definition is absent from the sources; section 4.3
of the spec defines `consume(token)` as atomically finding the token row
matching the string where `used_at IS NULL AND expires_at > now`, then
setting `used_at = now` and returning the owning user (here the owning
user id), and returning null otherwise. -/
def verify_and_consume_session_token (now : Int) (token : String)
    (db : List CheckInSessionToken) : Option Nat × List CheckInSessionToken :=
  let r := updateFirst
    (fun t => t.token == token && t.usedAt == none && decide (t.expiresAt > now))
    (fun t => { t with usedAt := some now })
    db
  (r.1.map (fun t => t.userId), r.2)

/-- C2: a freshly issued, unexpired session token is consumable exactly
once — the first consume finds the row with `used_at` null and
`expires_at` in the future, stamps `used_at`, and returns the owning
user; an immediately repeated consume with the same token string returns
none; and a token whose expiry has passed is never consumable regardless
of `used_at`. -/
theorem c2_session_token_single_use
    (db : List CheckInSessionToken) (t0 : CheckInSessionToken)
    (now1 now2 now3 : Int) (tok : String)
    (hmem : t0 ∈ db) (htok : t0.token = tok) (hunused : t0.usedAt = none)
    (hfresh : t0.expiresAt > now1)
    (huniq : (db.map CheckInSessionToken.token).Nodup) :
    (∀ dbx : List CheckInSessionToken,
      (∀ t ∈ dbx, t.token = tok → t.expiresAt ≤ now3) →
      verify_and_consume_session_token now3 tok dbx = (none, dbx))
    ∧ ∃ db1,
        verify_and_consume_session_token now1 tok db = (some t0.userId, db1)
        ∧ ({ t0 with usedAt := some now1 } : CheckInSessionToken) ∈ db1
        ∧ (verify_and_consume_session_token now2 tok db1).1 = none := by
  constructor
  · intro dbx hexp
    have h := updateFirst_of_forall_neg
      (fun (t : CheckInSessionToken) => t.token == tok && t.usedAt == none &&
        decide (t.expiresAt > now3))
      (fun (t : CheckInSessionToken) => { t with usedAt := some now3 })
      dbx
      (by
        intro z hz
        by_cases hzt : z.token = tok
        · have := hexp z hz hzt
          simp [hzt]
          omega
        · simp [hzt])
    simp [verify_and_consume_session_token, h]
  · obtain ⟨l1, l2, rfl⟩ := List.append_of_mem hmem
    rw [List.map_append, List.map_cons] at huniq
    obtain ⟨hn1, hn2, hdisj⟩ := List.nodup_append.mp huniq
    have htokl2 : t0.token ∉ l2.map CheckInSessionToken.token :=
      (List.nodup_cons.mp hn2).1
    have hl1 : ∀ z ∈ l1, (z.token == tok) = false := by
      intro z hz
      rw [beq_eq_false_iff_ne]
      intro hzeq
      exact hdisj (List.mem_map_of_mem CheckInSessionToken.token hz)
        (by rw [hzeq, ← htok]; exact List.mem_cons_self _ _)
    have hl2 : ∀ z ∈ l2, (z.token == tok) = false := by
      intro z hz
      rw [beq_eq_false_iff_ne]
      intro hzeq
      exact htokl2 (by
        rw [htok, ← hzeq]
        exact List.mem_map_of_mem CheckInSessionToken.token hz)
    have hpredl1 : ∀ z ∈ l1, (z.token == tok && z.usedAt == none &&
        decide (z.expiresAt > now1)) = false := by
      intro z hz
      rw [hl1 z hz]
      rfl
    have hpred0 : (t0.token == tok && t0.usedAt == none &&
        decide (t0.expiresAt > now1)) = true := by
      simp [htok, hunused, hfresh]
    have hc := updateFirst_append
      (fun (t : CheckInSessionToken) => t.token == tok && t.usedAt == none &&
        decide (t.expiresAt > now1))
      (fun (t : CheckInSessionToken) => { t with usedAt := some now1 })
      t0 l1 l2 hpredl1 hpred0
    refine ⟨l1 ++ ({ t0 with usedAt := some now1 } : CheckInSessionToken) :: l2,
      by simp [verify_and_consume_session_token, hc], ?_, ?_⟩
    · exact List.mem_append.mpr (Or.inr (List.mem_cons_self _ _))
    · have h := updateFirst_of_forall_neg
        (fun (t : CheckInSessionToken) => t.token == tok && t.usedAt == none &&
          decide (t.expiresAt > now2))
        (fun (t : CheckInSessionToken) => { t with usedAt := some now2 })
        (l1 ++ ({ t0 with usedAt := some now1 } : CheckInSessionToken) :: l2)
        (by
          intro z hz
          rcases List.mem_append.mp hz with hz1 | hz2
          · simp [hl1 z hz1]
          · rcases List.mem_cons.mp hz2 with hze | hzl2
            · subst hze; simp
            · simp [hl2 z hzl2])
      simp [verify_and_consume_session_token, h]

/-- Sample fresh session token row used by the C2 witness. -/
def sampleSessionToken : CheckInSessionToken where
  id := 1
  userId := 9
  token := "tok"
  expiresAt := 100

/-- Expired session token row used by the C2 witness. -/
def sampleExpiredToken : CheckInSessionToken where
  id := 2
  userId := 9
  token := "tok"
  expiresAt := 5

/-- C2 witness: a fresh token on a one-row table is consumed once and the
replay returns none, while an expired token is not consumable. -/
theorem c2_session_token_single_use_witness :
    verify_and_consume_session_token 30 "tok" [sampleExpiredToken]
        = (none, [sampleExpiredToken])
    ∧ ∃ db1,
        verify_and_consume_session_token 10 "tok" [sampleSessionToken]
            = (some sampleSessionToken.userId, db1)
        ∧ ({ sampleSessionToken with
            usedAt := some 10 } : CheckInSessionToken) ∈ db1
        ∧ (verify_and_consume_session_token 20 "tok" db1).1 = none :=
  ⟨(c2_session_token_single_use [sampleSessionToken] sampleSessionToken
      10 20 30 "tok" (by decide) rfl rfl (by decide) (by decide)).1
    [sampleExpiredToken] (by decide),
   (c2_session_token_single_use [sampleSessionToken] sampleSessionToken
      10 20 30 "tok" (by decide) rfl rfl (by decide) (by decide)).2⟩

/-! ## Notification fan-out orchestrator (`src/notifications/service.py`) -/

/-- Function `log_notification`: builds the audit row for one delivery
attempt; `sent_at` is stamped only for a successful send. -/
def log_notification (now : Int) (userId contactId : Nat)
    (ntype : NotificationType) (status : NotificationStatus)
    (errorMessage : Option String) : NotificationLog where
  userId := userId
  contactId := contactId
  type := ntype
  status := status
  errorMessage := errorMessage
  sentAt := if status = NotificationStatus.sent then some now else none

/-- Function `send_status_alert`: a non-email contact is skipped with no
delivery attempt and no log row; for an email contact the alert is handed
to the provider — whose outcome is the oracle `emailOk` — and a log row
with the outcome is written, on failure with status `failed` and an error
message. Returns the success flag and the log row, if any. -/
def send_status_alert (emailOk : EmergencyContact → Bool) (now : Int)
    (user : User) (contact : EmergencyContact) :
    Bool × Option NotificationLog :=
  if contact.contactType ≠ ContactType.email then (false, none)
  else
    let success := emailOk contact
    (success,
      some (log_notification now user.id contact.id
        NotificationType.statusAlert
        (if success then NotificationStatus.sent else NotificationStatus.failed)
        (if success then none else some "Failed to send email")))

/-- Function `send_personal_message_alert`: same shape as the status
alert, with type `personal_message`; the message argument is the
decrypted content handed to the email body. -/
def send_personal_message_alert (msgOk : EmergencyContact → Bool) (now : Int)
    (user : User) (contact : EmergencyContact) (message : String) :
    Bool × Option NotificationLog :=
  if contact.contactType ≠ ContactType.email then (false, none)
  else
    let success := msgOk contact
    (success,
      some (log_notification now user.id contact.id
        NotificationType.personalMessage
        (if success then NotificationStatus.sent else NotificationStatus.failed)
        (if success then none else some "Failed to send email")))

/-- Function `send_sos_alert_email`: like the status alert, with type
`sos_alert` and its own failure message. -/
def send_sos_alert_email (emailOk : EmergencyContact → Bool) (now : Int)
    (user : User) (contact : EmergencyContact) :
    Bool × Option NotificationLog :=
  if contact.contactType ≠ ContactType.email then (false, none)
  else
    let success := emailOk contact
    (success,
      some (log_notification now user.id contact.id
        NotificationType.sosAlert
        (if success then NotificationStatus.sent else NotificationStatus.failed)
        (if success then none else some "Failed to send SOS alert email")))

/-! ## Periodic scheduler (`src/scheduler/tasks.py`) -/

/-- Per-user contact loop of the missed check-in sweep
(`check_missed_checkins`): for each active contact a status alert is
attempted, and when the user carries an enabled, non-empty personal
message it is decrypted — the oracle `decryptOk` reports whether the
decrypt-and-send block raises — and sent as well. The log rows of all
attempts are collected in order; a failed delivery only affects its own
row and the loop continues with the remaining contacts. -/
def check_missed_checkins_fanout (statusOk msgOk : EmergencyContact → Bool)
    (decryptOk : Bool) (now : Int) (user : User)
    (contacts : List EmergencyContact) : List NotificationLog :=
  ((get_active_contacts user.id contacts).map (fun contact =>
    (send_status_alert statusOk now user contact).2.toList ++
      (match user.personalMessage with
       | some pm =>
         if pm.isEnabled ∧ pm.content ≠ "" ∧ decryptOk then
           (send_personal_message_alert msgOk now user contact pm.content).2.toList
         else []
       | none => []))).flatten

/-- Result of one run of the delayed SOS dispatch job. -/
structure SosDispatchResult where
  alertsSent : Nat
  logs : List NotificationLog
  db : List SOSEvent
  cancelledNoop : Bool
deriving Repr, DecidableEq

/-- Task `send_sos_alerts_delayed`: when the event is no longer
`triggered`, the job reports cancelled and returns without sending
anything or touching any state; otherwise it loads the event and its
user, sends the SOS alert to every active email contact, logging each
attempt, and finally marks the event sent. A missing event or user also
leaves the state unchanged. -/
def send_sos_alerts_delayed (emailOk : EmergencyContact → Bool) (now : Int)
    (sosId : Nat) (users : List User) (contacts : List EmergencyContact)
    (db : List SOSEvent) : SosDispatchResult :=
  if is_sos_still_active sosId db = false then
    { alertsSent := 0, logs := [], db := db, cancelledNoop := true }
  else
    match get_sos_event sosId db with
    | none => { alertsSent := 0, logs := [], db := db, cancelledNoop := false }
    | some ev =>
      match users.find? (fun u => u.id == ev.userId) with
      | none => { alertsSent := 0, logs := [], db := db, cancelledNoop := false }
      | some user =>
        let emails := (get_active_contacts user.id contacts).filter
          (fun c => c.contactType == ContactType.email)
        { alertsSent := (emails.filter
            (fun c => (send_sos_alert_email emailOk now user c).1)).length,
          logs := emails.filterMap
            (fun c => (send_sos_alert_email emailOk now user c).2),
          db := (mark_sos_sent now sosId db).2,
          cancelledNoop := false }

theorem filterMap_eq_map_of_forall_some (F : α → Option β) (g : α → β) :
    ∀ l : List α, (∀ x ∈ l, F x = some (g x)) → l.filterMap F = l.map g := by
  intro l
  induction l with
  | nil => intro _; rfl
  | cons x xs ih =>
    intro h
    rw [List.filterMap_cons, h x (List.mem_cons_self x xs),
      List.map_cons, ih (fun z hz => h z (List.mem_cons_of_mem x hz))]

theorem get_sos_event_mark_sent (now : Int) (sosId : Nat) :
    ∀ (db : List SOSEvent) (ev : SOSEvent), get_sos_event sosId db = some ev →
      get_sos_event sosId (mark_sos_sent now sosId db).2
        = some { ev with status := SOSStatus.sent, sentAt := some now } := by
  intro db
  induction db with
  | nil => intro ev h; simp [get_sos_event] at h
  | cons e rest ih =>
    intro ev h
    by_cases hid : (e.id == sosId) = true
    · have hp : (fun x : SOSEvent => x.id == sosId) e = true := hid
      rw [get_sos_event, List.find?_cons_of_pos rest hp] at h
      have hev : e = ev := by injection h
      subst hev
      have hstep : (mark_sos_sent now sosId (e :: rest)).2
          = ({ e with status := SOSStatus.sent, sentAt := some now } :
              SOSEvent) :: rest := by
        simp [mark_sos_sent, updateFirst, hid]
      have hp2 : (fun x : SOSEvent => x.id == sosId)
          ({ e with status := SOSStatus.sent, sentAt := some now } :
            SOSEvent) = true := by simpa using hid
      rw [hstep, get_sos_event, List.find?_cons_of_pos rest hp2]
    · have hn : ¬ (fun x : SOSEvent => x.id == sosId) e = true := hid
      have hid2 : (e.id == sosId) = false := Bool.eq_false_iff.mpr hid
      rw [get_sos_event, List.find?_cons_of_neg rest hn] at h
      have hm := ih ev h
      have hstep : (mark_sos_sent now sosId (e :: rest)).2
          = e :: (mark_sos_sent now sosId rest).2 := by
        simp [mark_sos_sent, updateFirst, hid2]
      rw [hstep, get_sos_event,
        List.find?_cons_of_neg (mark_sos_sent now sosId rest).2 hn]
      exact hm

/-- C6: when the delayed SOS dispatch job fires for an event that is no
longer `triggered`, the job sends zero notifications and leaves all state
unchanged; when the event is still `triggered` and its user exists, the
job logs one SOS alert per active email contact with the delivery outcome
and then marks the event sent. -/
theorem c6_sos_delayed_dispatch
    (emailOk : EmergencyContact → Bool) (now : Int) (sosId : Nat)
    (users : List User) (contacts : List EmergencyContact)
    (db : List SOSEvent) :
    (is_sos_still_active sosId db = false →
      send_sos_alerts_delayed emailOk now sosId users contacts db
        = { alertsSent := 0, logs := [], db := db, cancelledNoop := true })
    ∧ (∀ ev user, get_sos_event sosId db = some ev →
        ev.status = SOSStatus.triggered →
        users.find? (fun u => u.id == ev.userId) = some user →
        (send_sos_alerts_delayed emailOk now sosId users contacts
            db).cancelledNoop = false
        ∧ (send_sos_alerts_delayed emailOk now sosId users contacts db).db
            = (mark_sos_sent now sosId db).2
        ∧ get_sos_event sosId
            (send_sos_alerts_delayed emailOk now sosId users contacts db).db
            = some { ev with status := SOSStatus.sent, sentAt := some now }
        ∧ (send_sos_alerts_delayed emailOk now sosId users contacts db).logs
            = ((get_active_contacts user.id contacts).filter
                (fun c => c.contactType == ContactType.email)).map
                (fun c => log_notification now user.id c.id
                  NotificationType.sosAlert
                  (if emailOk c then NotificationStatus.sent
                    else NotificationStatus.failed)
                  (if emailOk c then none
                    else some "Failed to send SOS alert email"))) := by
  constructor
  · intro h
    simp [send_sos_alerts_delayed, h]
  · intro ev user hev hst hfind
    have hactive : is_sos_still_active sosId db = true := by
      rw [is_sos_still_active, hev]
      simp [hst]
    have hmain : send_sos_alerts_delayed emailOk now sosId users contacts db
        = { alertsSent := (((get_active_contacts user.id contacts).filter
              (fun c => c.contactType == ContactType.email)).filter
              (fun c => (send_sos_alert_email emailOk now user c).1)).length,
            logs := ((get_active_contacts user.id contacts).filter
              (fun c => c.contactType == ContactType.email)).filterMap
              (fun c => (send_sos_alert_email emailOk now user c).2),
            db := (mark_sos_sent now sosId db).2,
            cancelledNoop := false } := by
      simp [send_sos_alerts_delayed, hactive, hev, hfind]
    refine ⟨by rw [hmain], by rw [hmain], ?_, ?_⟩
    · rw [hmain]
      exact get_sos_event_mark_sent now sosId db ev hev
    · rw [hmain]
      refine filterMap_eq_map_of_forall_some _ _ _ ?_
      intro c hcm
      have hct : c.contactType = ContactType.email := by
        have := (List.mem_filter.mp hcm).2
        simpa using this
      simp [send_sos_alert_email, hct]

/-- Cancelled SOS event row used by the C6 witness. -/
def sampleCancelledSos : SOSEvent where
  id := 1
  userId := 5
  triggeredAt := 0
  cancelledAt := some 3
  status := SOSStatus.cancelled

/-- Triggered SOS event row used by the C6 witness. -/
def sampleTriggeredSos : SOSEvent where
  id := 1
  userId := 5
  triggeredAt := 0
  status := SOSStatus.triggered

/-- C6 witness: on a cancelled event the job is a no-op with zero alerts;
on a triggered event it marks the event sent and logs one alert per
active email contact. -/
theorem c6_sos_delayed_dispatch_witness :
    send_sos_alerts_delayed (fun _ => true) 9 1 [{ id := 5 }] []
        [sampleCancelledSos]
      = { alertsSent := 0, logs := [], db := [sampleCancelledSos],
          cancelledNoop := true }
    ∧ ((send_sos_alerts_delayed (fun _ => true) 9 1 [{ id := 5 }] []
          [sampleTriggeredSos]).cancelledNoop = false
      ∧ (send_sos_alerts_delayed (fun _ => true) 9 1 [{ id := 5 }] []
          [sampleTriggeredSos]).db
          = (mark_sos_sent 9 1 [sampleTriggeredSos]).2
      ∧ get_sos_event 1
          (send_sos_alerts_delayed (fun _ => true) 9 1 [{ id := 5 }] []
            [sampleTriggeredSos]).db
          = some { sampleTriggeredSos with
              status := SOSStatus.sent, sentAt := some 9 }
      ∧ (send_sos_alerts_delayed (fun _ => true) 9 1 [{ id := 5 }] []
          [sampleTriggeredSos]).logs
          = ((get_active_contacts (5 : Nat) ([] : List EmergencyContact)).filter
              (fun c => c.contactType == ContactType.email)).map
              (fun c => log_notification 9 5 c.id NotificationType.sosAlert
                (if true then NotificationStatus.sent
                  else NotificationStatus.failed)
                (if true then none
                  else some "Failed to send SOS alert email"))) :=
  ⟨(c6_sos_delayed_dispatch (fun _ => true) 9 1 [{ id := 5 }] []
      [sampleCancelledSos]).1 (by decide),
   (c6_sos_delayed_dispatch (fun _ => true) 9 1 [{ id := 5 }] []
      [sampleTriggeredSos]).2 sampleTriggeredSos { id := 5 }
      (by decide) rfl (by decide)⟩

/-- C8: in the missed check-in fan-out, exactly one status-alert log row
is produced for each active email contact, recording the delivery
outcome — status `sent` on success, status `failed` with an error message
on failure — while sms contacts are silently skipped with no row; the
equation holds for every outcome oracle, so one failed delivery never
affects the rows of the remaining contacts. -/
theorem c8_missed_checkin_fanout_logs
    (statusOk msgOk : EmergencyContact → Bool) (decryptOk : Bool)
    (now : Int) (user : User) (contacts : List EmergencyContact) :
    (check_missed_checkins_fanout statusOk msgOk decryptOk now user
        contacts).filter (fun l => l.type == NotificationType.statusAlert)
      = ((get_active_contacts user.id contacts).filter
          (fun c => c.contactType == ContactType.email)).map
          (fun c => log_notification now user.id c.id
            NotificationType.statusAlert
            (if statusOk c then NotificationStatus.sent
              else NotificationStatus.failed)
            (if statusOk c then none else some "Failed to send email")) := by
  rw [check_missed_checkins_fanout]
  generalize get_active_contacts user.id contacts = l
  induction l with
  | nil => simp
  | cons c rest ih =>
    simp only [List.map_cons, List.flatten_cons, List.filter_append, ih,
      List.filter_cons]
    have hmsg : ((match user.personalMessage with
        | some pm =>
          if pm.isEnabled ∧ pm.content ≠ "" ∧ decryptOk then
            (send_personal_message_alert msgOk now user c pm.content).2.toList
          else []
        | none => []) : List NotificationLog).filter
          (fun l => l.type == NotificationType.statusAlert) = [] := by
      cases hpm : user.personalMessage with
      | none => rfl
      | some pm =>
        by_cases hcnd : pm.isEnabled ∧ pm.content ≠ "" ∧ decryptOk
        · cases hct : c.contactType <;>
            simp [hcnd, send_personal_message_alert, hct, log_notification]
        · simp [hcnd]
    rw [hmsg, List.append_nil]
    have hstat : ((send_status_alert statusOk now user c).2.toList).filter
        (fun l => l.type == NotificationType.statusAlert)
        = if c.contactType == ContactType.email then
            [log_notification now user.id c.id NotificationType.statusAlert
              (if statusOk c then NotificationStatus.sent
                else NotificationStatus.failed)
              (if statusOk c then none else some "Failed to send email")]
          else [] := by
      cases hct : c.contactType <;>
        simp [send_status_alert, hct, log_notification]
    rw [hstat]
    cases hct2 : (c.contactType == ContactType.email) <;> simp [hct2]

end SoloCheck
